import Mathlib

/-!
Verification of the staleness-decision and result-caching engine of the
repo-swarm repository.

The development shallowly embeds:
* the data model of `src/models/investigation.py` and `src/models/cache.py`;
* the storage-key generators of `src/utils/storage_keys.py`;
* the results collector of `src/investigator/core/analysis_results_collector.py`;
* the investigation cache (staleness decision engine and prompt result
  cache).  The file `src/activities/investigation_cache.py` that implements
  class `InvestigationCache` is not part of the source tree available here
  (only its tests and callers are), so those operations are modelled from
  the specification text, as marked in their doc comments.

Python dictionaries are embedded as association lists so that insertion
order (which Python preserves and which the code's iteration relies on) is
kept; dictionary lookup is `List.lookup`.  Fallible operations return
`Except String`.
-/

namespace RepoSwarm

/-- Current state of a repository; mirrors `RepositoryState` in
`src/models/investigation.py`. -/
structure RepositoryState where
  commit_sha : String
  branch_name : String
  has_uncommitted_changes : Bool
  deriving Repr, DecidableEq

/-- Metadata about prompts used in an investigation; mirrors
`PromptMetadata` in `src/models/investigation.py`. -/
structure PromptMetadata where
  count : Nat
  versions : List (String × String) := []
  deriving Repr, DecidableEq

/-- The durable per-repository record of the last investigation; mirrors
`InvestigationMetadata` in `src/models/investigation.py` (the spec calls it
`InvestigationRecord`).  Fields that the staleness decision never reads
(timestamps, free-form analysis data) are carried as plain strings. -/
structure InvestigationMetadata where
  repository_name : String := ""
  repository_url : String := ""
  latest_commit : Option String := none
  branch_name : Option String := none
  analysis_timestamp : Nat := 0
  prompt_metadata : Option PromptMetadata := none
  deriving Repr, DecidableEq

/-- Result of a staleness decision; mirrors `InvestigationDecision` in
`src/models/investigation.py`. -/
structure InvestigationDecision where
  needs_investigation : Bool
  reason : String
  latest_commit : Option String := none
  branch_name : Option String := none
  last_investigation : Option InvestigationMetadata := none
  deriving Repr, DecidableEq

/-- Result of a prompt-level cache check; mirrors `PromptCacheResult` in
`src/models/cache.py`. -/
structure PromptCacheResult where
  needs_analysis : Bool
  cached_result_key : Option String := none
  cached_result : Option String := none
  reason : String
  version : String := "1"
  deriving Repr, DecidableEq

/-- Prompt cache key; mirrors `PromptCacheKey` in
`src/utils/storage_keys.py` (the pydantic default of `prompt_version`
is the string "1"). -/
structure PromptCacheKey where
  repo_name : String
  step_name : String
  commit_sha : String
  prompt_version : String := "1"
  deriving Repr, DecidableEq

/-- Storage key of a prompt cache entry; mirrors
`PromptCacheKey.to_storage_key` in `src/utils/storage_keys.py`, the
f-string joining repo name, step name, commit sha and a "v"-prefixed
version with underscores. -/
def PromptCacheKey.to_storage_key (k : PromptCacheKey) : String :=
  k.repo_name ++ "_" ++ k.step_name ++ "_" ++ k.commit_sha ++ "_v" ++ k.prompt_version

/-- Investigation metadata key; mirrors `InvestigationMetadataKey` in
`src/utils/storage_keys.py`. -/
structure InvestigationMetadataKey where
  repo_name : String
  analysis_type : String := "investigation"
  deriving Repr, DecidableEq

/-- Storage key of the per-repository metadata record; mirrors
`InvestigationMetadataKey.to_storage_key` in `src/utils/storage_keys.py`:
just the repository name. -/
def InvestigationMetadataKey.to_storage_key (k : InvestigationMetadataKey) : String :=
  k.repo_name

/-- Outcome record of saving a prompt result (status, message and the
cache key that was written). -/
structure SavePromptResultOutput where
  status : String
  message : String
  cache_key : Option String := none
  deriving Repr, DecidableEq

/-- Modelled from the spec: `InvestigationCache.save_prompt_result` of the
missing `src/activities/investigation_cache.py`.  Writes the step's result
content under the composite prompt cache key (built by
`PromptCacheKey.to_storage_key`, default version "1") into the key-value
store, and reports the key it used.  The store is embedded as an
association list; a fresh write shadows any previous binding of the key. -/
def save_prompt_result (store : List (String × String))
    (repo_name step_name commit_sha result_content : String)
    (prompt_version : String := "1") :
    List (String × String) × SavePromptResultOutput :=
  let cache_key := (PromptCacheKey.mk repo_name step_name commit_sha prompt_version).to_storage_key
  ((cache_key, result_content) :: store,
   { status := "success"
   , message := "Saved analysis result for " ++ step_name
   , cache_key := some cache_key })

/-- Modelled from the spec: `InvestigationCache.check_prompt_needs_analysis`
of the missing `src/activities/investigation_cache.py`.  Looks up the same
composite prompt cache key (default version "1"); a hit returns
needs_analysis = false together with the cached content, a miss returns
needs_analysis = true. -/
def check_prompt_needs_analysis (store : List (String × String))
    (repo_name step_name commit_sha : String)
    (prompt_version : String := "1") : PromptCacheResult :=
  let cache_key := (PromptCacheKey.mk repo_name step_name commit_sha prompt_version).to_storage_key
  match store.lookup cache_key with
  | some cached =>
    { needs_analysis := false
    , cached_result_key := some cache_key
    , cached_result := some cached
    , reason := "Using cached result from previous analysis"
    , version := prompt_version }
  | none =>
    { needs_analysis := true
    , cached_result_key := none
    , cached_result := none
    , reason := "No cached result found for commit " ++ commit_sha.take 8 ++ " version " ++ prompt_version
    , version := prompt_version }

/-- C5: for every repo name, step name, commit id and version (defaulting
to "1"), the prompt-level cache key used both by saving and by looking up
a step's result is exactly the string repo_name, step_name, commit_id and
"v" ++ version joined by underscores, and the metadata record key is
exactly the repo name. -/
theorem prompt_cache_key_format (repo step commit version content : String)
    (store : List (String × String)) :
    (PromptCacheKey.mk repo step commit version).to_storage_key =
        repo ++ "_" ++ step ++ "_" ++ commit ++ "_v" ++ version ∧
    ({ repo_name := repo, step_name := step, commit_sha := commit } :
        PromptCacheKey).to_storage_key =
        repo ++ "_" ++ step ++ "_" ++ commit ++ "_v" ++ "1" ∧
    (save_prompt_result store repo step commit content version).2.cache_key =
        some (repo ++ "_" ++ step ++ "_" ++ commit ++ "_v" ++ version) ∧
    (save_prompt_result store repo step commit content version).1.lookup
        (repo ++ "_" ++ step ++ "_" ++ commit ++ "_v" ++ version) = some content ∧
    (check_prompt_needs_analysis
        ((repo ++ "_" ++ step ++ "_" ++ commit ++ "_v" ++ version, content) :: store)
        repo step commit version).cached_result_key =
        some (repo ++ "_" ++ step ++ "_" ++ commit ++ "_v" ++ version) ∧
    (InvestigationMetadataKey.mk repo "investigation").to_storage_key = repo := by
  refine ⟨rfl, rfl, rfl, ?_, ?_, rfl⟩
  · simp [save_prompt_result, PromptCacheKey.to_storage_key, List.lookup]
  · simp [check_prompt_needs_analysis, PromptCacheKey.to_storage_key, List.lookup]

/-- C6: saving a prompt result and then checking the same repo, step,
commit and version against the resulting store returns
needs_analysis = false and the saved content as the cached result. -/
theorem save_then_check_roundtrip (store : List (String × String))
    (repo step commit version content : String) :
    (check_prompt_needs_analysis
        (save_prompt_result store repo step commit content version).1
        repo step commit version).needs_analysis = false ∧
    (check_prompt_needs_analysis
        (save_prompt_result store repo step commit content version).1
        repo step commit version).cached_result = some content := by
  constructor <;>
    simp [check_prompt_needs_analysis, save_prompt_result, List.lookup]

/-- Modelled from the spec: the versions map of the prior record's prompt
metadata, taken as the empty map when `prompt_metadata` is absent
(spec 4.1, prompt-version sub-check). -/
def lastVersions (last_investigation : InvestigationMetadata) : List (String × String) :=
  (last_investigation.prompt_metadata.map PromptMetadata.versions).getD []

/-- Modelled from the spec: the prior record's prompt count, zero when the
metadata is absent (spec 4.1). -/
def lastPromptCount (last_investigation : InvestigationMetadata) : Nat :=
  (last_investigation.prompt_metadata.map PromptMetadata.count).getD 0

/-- Modelled from the spec: the prompt-version sub-check
`InvestigationCache._check_prompt_version_changes` of the missing
`src/activities/investigation_cache.py` (spec 4.1).  Returns `none` when
no version change is signalled, otherwise the triggering decision.
When the prior versions map is empty, the first current entry whose
version differs from "1" triggers; otherwise a count mismatch triggers
first, then the first individual version mismatch (steps absent from the
prior map are assumed to have been at version "1"). -/
def check_prompt_version_changes (current_state : RepositoryState)
    (current_prompt_versions : Option (List (String × String)))
    (last_investigation : InvestigationMetadata) : Option InvestigationDecision :=
  match current_prompt_versions with
  | none => none
  | some current =>
    let last_vers := lastVersions last_investigation
    if last_vers = [] then
      match current.find? (fun p => p.2 != "1") with
      | some p =>
        some { needs_investigation := true
             , reason := p.1 ++ " updated to v" ++ p.2 ++ " (no previous version tracking)"
             , latest_commit := some current_state.commit_sha
             , branch_name := some current_state.branch_name
             , last_investigation := some last_investigation }
      | none => none
    else if lastPromptCount last_investigation ≠ current.length then
      some { needs_investigation := true
           , reason := "Prompt count changed: " ++
               toString (lastPromptCount last_investigation) ++ " → " ++ toString current.length
           , latest_commit := some current_state.commit_sha
           , branch_name := some current_state.branch_name
           , last_investigation := some last_investigation }
    else
      match current.find? (fun p => ((last_vers.lookup p.1).getD "1") != p.2) with
      | some p =>
        some { needs_investigation := true
             , reason := p.1 ++ " version changed: v" ++
                 ((last_vers.lookup p.1).getD "1") ++ " → v" ++ p.2
             , latest_commit := some current_state.commit_sha
             , branch_name := some current_state.branch_name
             , last_investigation := some last_investigation }
      | none => none

/-- Modelled from the spec: the staleness decision
`InvestigationCache.check_needs_investigation` of the missing
`src/activities/investigation_cache.py` (spec 4.1).  Its first argument is
the outcome of asking the metadata store for the repository's record: an
error message when the read raised, otherwise the record or `none`.  The
checks run in the spec's priority order: storage error, no record, branch
change, commit change, prompt-version change, and finally no change.  The
`has_uncommitted_changes` flag of the state is deliberately never read. -/
def check_needs_investigation
    (get_latest_investigation : Except String (Option InvestigationMetadata))
    (current_state : RepositoryState)
    (current_prompt_versions : Option (List (String × String)) := none) :
    InvestigationDecision :=
  match get_latest_investigation with
  | .error e =>
    { needs_investigation := true
    , reason := "Unable to check previous investigations (storage error: " ++ e ++ ")"
    , latest_commit := some current_state.commit_sha
    , branch_name := some current_state.branch_name
    , last_investigation := none }
  | .ok none =>
    { needs_investigation := true
    , reason := "No previous investigation found"
    , latest_commit := some current_state.commit_sha
    , branch_name := some current_state.branch_name
    , last_investigation := none }
  | .ok (some rec) =>
    if rec.branch_name ≠ some current_state.branch_name then
      { needs_investigation := true
      , reason := "Branch changed: " ++ rec.branch_name.getD "unknown" ++
          " → " ++ current_state.branch_name
      , latest_commit := some current_state.commit_sha
      , branch_name := some current_state.branch_name
      , last_investigation := some rec }
    else if rec.latest_commit ≠ some current_state.commit_sha then
      { needs_investigation := true
      , reason := "New commits detected: " ++ (rec.latest_commit.getD "unknown").take 8 ++
          " → " ++ current_state.commit_sha.take 8
      , latest_commit := some current_state.commit_sha
      , branch_name := some current_state.branch_name
      , last_investigation := some rec }
    else
      match check_prompt_version_changes current_state current_prompt_versions rec with
      | some decision => decision
      | none =>
        { needs_investigation := false
        , reason := "No changes since last investigation"
        , latest_commit := some current_state.commit_sha
        , branch_name := some current_state.branch_name
        , last_investigation := some rec }

/-- C1: when the metadata store holds no previous record, the decision is
needs_investigation = true with reason exactly "No previous investigation
found", commit and branch copied from the current repository state, and no
last investigation. -/
theorem check_no_previous_investigation (current_state : RepositoryState)
    (current_prompt_versions : Option (List (String × String))) :
    check_needs_investigation (Except.ok none) current_state current_prompt_versions =
      { needs_investigation := true
      , reason := "No previous investigation found"
      , latest_commit := some current_state.commit_sha
      , branch_name := some current_state.branch_name
      , last_investigation := none } := rfl

/-- C2: the decision is invariant under toggling has_uncommitted_changes
(holding commit and branch fixed), for every store outcome and
prompt-version map; in particular a record matching the current commit and
branch yields needs_investigation = false even with uncommitted changes. -/
theorem check_ignores_uncommitted_changes
    (store : Except String (Option InvestigationMetadata))
    (commit branch : String) (d₁ d₂ : Bool)
    (current_prompt_versions : Option (List (String × String)))
    (rec : InvestigationMetadata)
    (hc : rec.latest_commit = some commit)
    (hb : rec.branch_name = some branch) :
    check_needs_investigation store ⟨commit, branch, d₁⟩ current_prompt_versions =
      check_needs_investigation store ⟨commit, branch, d₂⟩ current_prompt_versions ∧
    (check_needs_investigation (Except.ok (some rec)) ⟨commit, branch, true⟩
      none).needs_investigation = false := by
  constructor
  · cases store with
    | error e => rfl
    | ok o =>
      cases o with
      | none => rfl
      | some r =>
        cases current_prompt_versions with
        | none => rfl
        | some cur => rfl
  · simp [check_needs_investigation, check_prompt_version_changes, hb, hc]

/-- Witness for C2 at a concrete record whose commit and branch match the
current state. -/
theorem check_ignores_uncommitted_changes_witness :
    check_needs_investigation (Except.ok (some { latest_commit := some "abc123", branch_name := some "main" }))
        ⟨"abc123", "main", true⟩ none =
      check_needs_investigation (Except.ok (some { latest_commit := some "abc123", branch_name := some "main" }))
        ⟨"abc123", "main", false⟩ none ∧
    (check_needs_investigation
        (Except.ok (some { latest_commit := some "abc123", branch_name := some "main" }))
        ⟨"abc123", "main", true⟩ none).needs_investigation = false :=
  check_ignores_uncommitted_changes
    (Except.ok (some { latest_commit := some "abc123", branch_name := some "main" }))
    "abc123" "main" true false none
    { latest_commit := some "abc123", branch_name := some "main" } rfl rfl

/-- C3: with a non-empty prior versions map and a stored prompt count that
differs from the number of current prompt versions, the sub-check signals
the count-mismatch reason, whatever individual version mismatches are also
present. -/
theorem check_prompt_count_mismatch
    (commit branch : String) (d : Bool)
    (current : List (String × String)) (rec : InvestigationMetadata)
    (count : Nat) (vers : List (String × String))
    (hm : rec.prompt_metadata = some ⟨count, vers⟩)
    (hne : vers ≠ [])
    (hcount : count ≠ current.length) :
    check_prompt_version_changes ⟨commit, branch, d⟩ (some current) rec =
      some { needs_investigation := true
           , reason := "Prompt count changed: " ++ toString count ++ " → " ++
               toString current.length
           , latest_commit := some commit
           , branch_name := some branch
           , last_investigation := some rec } := by
  simp [check_prompt_version_changes, lastVersions, lastPromptCount, hm, hne, hcount]

/-- Witness for C3: the prior record tracked two prompts, the current run
has three, and one of the still-present prompts also changed its version;
the reported reason is the count mismatch. -/
theorem check_prompt_count_mismatch_witness :
    (([("hl_overview", "1"), ("dependencies", "1")] : List (String × String)) ≠ []) ∧
    (2 ≠ ([("hl_overview", "2"), ("dependencies", "1"), ("apis", "1")] : List (String × String)).length) ∧
    check_prompt_version_changes ⟨"abc123", "main", false⟩
        (some [("hl_overview", "2"), ("dependencies", "1"), ("apis", "1")])
        { prompt_metadata := some ⟨2, [("hl_overview", "1"), ("dependencies", "1")]⟩ } =
      some { needs_investigation := true
           , reason := "Prompt count changed: 2 → 3"
           , latest_commit := some "abc123"
           , branch_name := some "main"
           , last_investigation :=
               some { prompt_metadata := some ⟨2, [("hl_overview", "1"), ("dependencies", "1")]⟩ } } :=
  ⟨by decide, by decide,
   check_prompt_count_mismatch "abc123" "main" false
     [("hl_overview", "2"), ("dependencies", "1"), ("apis", "1")]
     { prompt_metadata := some ⟨2, [("hl_overview", "1"), ("dependencies", "1")]⟩ }
     2 [("hl_overview", "1"), ("dependencies", "1")] rfl (by decide) (by decide)⟩

/-- C4: with an empty (or absent) prior versions map, the sub-check
signals a change exactly when some current entry has a version other than
"1"; the first such entry found during iteration is reported with the
"no previous version tracking" reason, and all-"1" maps report nothing. -/
theorem check_prompt_no_previous_tracking
    (commit branch : String) (d : Bool)
    (current : List (String × String)) (rec : InvestigationMetadata)
    (h : lastVersions rec = []) :
    (check_prompt_version_changes ⟨commit, branch, d⟩ (some current) rec = none ↔
      ∀ p ∈ current, p.2 = "1") ∧
    (∀ s v, current.find? (fun p => p.2 != "1") = some (s, v) →
      check_prompt_version_changes ⟨commit, branch, d⟩ (some current) rec =
        some { needs_investigation := true
             , reason := s ++ " updated to v" ++ v ++ " (no previous version tracking)"
             , latest_commit := some commit
             , branch_name := some branch
             , last_investigation := some rec }) := by
  have hif : ∀ s v, current.find? (fun p => p.2 != "1") = some (s, v) →
      check_prompt_version_changes ⟨commit, branch, d⟩ (some current) rec =
        some { needs_investigation := true
             , reason := s ++ " updated to v" ++ v ++ " (no previous version tracking)"
             , latest_commit := some commit
             , branch_name := some branch
             , last_investigation := some rec } := by
    intro s v hsv
    simp [check_prompt_version_changes, h, hsv]
  refine ⟨⟨?_, ?_⟩, hif⟩
  · intro hnone p hp
    by_contra hne1
    rcases hf : current.find? (fun q => q.2 != "1") with _ | q
    · rw [List.find?_eq_none] at hf
      exact hne1 (by simpa using hf p hp)
    · rw [hif q.1 q.2 (by simpa using hf)] at hnone
      exact Option.noConfusion hnone
  · intro hall
    rcases hf : current.find? (fun q => q.2 != "1") with _ | q
    · simp [check_prompt_version_changes, h, hf]
    · exfalso
      have hq := List.find?_some hf
      have hmem := List.mem_of_find?_eq_some hf
      rw [hall q hmem] at hq
      simp at hq

/-- Witness for C4 at a record with empty version tracking and a current
map whose first entry is at version "2". -/
theorem check_prompt_no_previous_tracking_witness :
    (lastVersions { prompt_metadata := some ⟨0, []⟩ } = []) ∧
    (check_prompt_version_changes ⟨"abc123", "main", false⟩
        (some [("hl_overview", "2")]) { prompt_metadata := some ⟨0, []⟩ } = none ↔
      ∀ p ∈ ([("hl_overview", "2")] : List (String × String)), p.2 = "1") ∧
    check_prompt_version_changes ⟨"abc123", "main", false⟩
        (some [("hl_overview", "2")]) { prompt_metadata := some ⟨0, []⟩ } =
      some { needs_investigation := true
           , reason := "hl_overview updated to v2 (no previous version tracking)"
           , latest_commit := some "abc123"
           , branch_name := some "main"
           , last_investigation := some { prompt_metadata := some ⟨0, []⟩ } } := by
  refine ⟨rfl, ?_, ?_⟩
  · exact (check_prompt_no_previous_tracking "abc123" "main" false
      [("hl_overview", "2")] { prompt_metadata := some ⟨0, []⟩ } rfl).1
  · exact (check_prompt_no_previous_tracking "abc123" "main" false
      [("hl_overview", "2")] { prompt_metadata := some ⟨0, []⟩ } rfl).2
      "hl_overview" "2" (by decide)

/-- One entry of the processing order configuration consumed by the
results collector (`step_config` dictionaries in
`src/investigator/core/analysis_results_collector.py`; Python's
`step_config.get("required", True)` default is mirrored by the field
default). -/
structure StepConfig where
  name : String
  description : String := ""
  required : Bool := true
  deriving Repr, DecidableEq

/-- One entry of the cached-results map passed to `combine_results`; in
Python it is a dictionary whose "version", "content" and "timestamp" keys
may each be absent (`cached_result.get(...)`). -/
structure CachedEntry where
  version : Option String := none
  content : Option String := none
  timestamp : Option String := none
  deriving Repr, DecidableEq

/-- A tracked analysis step; mirrors the `StepResult` dataclass in
`src/investigator/core/analysis_results_collector.py`. -/
structure StepResult where
  name : String
  description : String
  result_key : String
  content : Option String := none
  required : Bool := true
  context_dependencies : List String := []
  version : Option String := none
  cached : Bool := false
  cache_timestamp : Option String := none
  deriving Repr, DecidableEq

/-- One entry of the combined output of `combine_results`: the dictionary
built in the loop body, with the keys that are only conditionally present
("result_key", "required" when the step was tracked, "cache_timestamp"
when a cached entry was used) embedded as options. -/
structure CombinedResult where
  name : String
  description : String
  content : String
  version : String
  cached : Bool
  result_key : Option String := none
  required : Option Bool := none
  cache_timestamp : Option String := none
  deriving Repr, DecidableEq

/-- Python truthiness of an optional string: `None` and the empty string
are falsy, every other string is truthy. -/
def truthy : Option String → Bool
  | none => false
  | some s => s != ""

/-- The collector state of `AnalysisResultsCollector` in
`src/investigator/core/analysis_results_collector.py` that
`combine_results` reads: the tracked step results and the base section
names extracted from the configuration. -/
structure AnalysisResultsCollector where
  repo_name : String
  step_results : List (String × StepResult) := []
  base_sections : List String := []
  deriving Repr, DecidableEq

/-- Constructor of the collector; mirrors
`AnalysisResultsCollector.__init__` together with
`_extract_base_sections`: base sections are the names of the
configuration's processing order, or empty when no configuration was
given. -/
def mkCollector (repo_name : String)
    (base_prompts_config : Option (List StepConfig)) : AnalysisResultsCollector :=
  { repo_name := repo_name
  , step_results := []
  , base_sections := (base_prompts_config.getD []).map StepConfig.name }

/-- The body of the `for step_config in processing_order` loop of
`AnalysisResultsCollector.combine_results`: decides, for one step of the
processing order, whether a fresh result, a version-matching cached
result, or an outdated cached result supplies the content, and returns
the step's output entry, or `none` when the step ends up with no truthy
content and is omitted. -/
def combineStep (step_results : List (String × StepResult))
    (results_map : List (String × String))
    (cached_results_map : List (String × CachedEntry))
    (prompt_versions : List (String × String))
    (step_config : StepConfig) : Option CombinedResult :=
  let step_name := step_config.name
  let current_version := (prompt_versions.lookup step_name).getD "1"
  let cached_result := cached_results_map.lookup step_name
  let cached_version := cached_result.bind CachedEntry.version
  let cached_content := cached_result.bind CachedEntry.content
  let new_result := results_map.lookup step_name
  let uc :=
    if truthy cached_content && (cached_version == some current_version) && !new_result.isSome then
      (true, cached_content)
    else if new_result.isSome then
      (false, new_result)
    else if truthy cached_content then
      (true, cached_content)
    else
      (false, (none : Option String))
  if truthy uc.2 then
    let step_info := step_results.lookup step_name
    some
      { name := step_name
      , description := step_config.description
      , content := uc.2.getD ""
      , version := current_version
      , cached := uc.1
      , result_key := step_info.map StepResult.result_key
      , required := step_info.map StepResult.required
      , cache_timestamp := if uc.1 then cached_result.bind CachedEntry.timestamp else none }
  else
    none

/-- Combination of cached and fresh step results; mirrors
`AnalysisResultsCollector.combine_results`: the steps are processed in
the order given by `processing_order`, and afterwards, when the collector
has base sections that include "monitoring" but the combined output has
no "monitoring" entry, a hard error is raised (`Except.error`), otherwise
the combined list is returned. -/
def combine_results (c : AnalysisResultsCollector)
    (results_map : List (String × String))
    (processing_order : List StepConfig)
    (cached_results_map : List (String × CachedEntry) := [])
    (prompt_versions : List (String × String) := []) :
    Except String (List CombinedResult) :=
  let combined_results := processing_order.filterMap
    (combineStep c.step_results results_map cached_results_map prompt_versions)
  if c.base_sections ≠ [] ∧ "monitoring" ∈ c.base_sections ∧
      "monitoring" ∉ combined_results.map CombinedResult.name then
    .error "Critical: Monitoring section missing from final results!"
  else
    .ok combined_results

theorem combineStep_name_eq (step_results : List (String × StepResult))
    (results_map : List (String × String))
    (cached_results_map : List (String × CachedEntry))
    (prompt_versions : List (String × String))
    (step_config : StepConfig) (r : CombinedResult)
    (h : combineStep step_results results_map cached_results_map prompt_versions step_config =
      some r) : r.name = step_config.name := by
  simp only [combineStep, Option.ite_none_right_eq_some] at h
  obtain ⟨-, h2⟩ := h
  have h3 := Option.some.inj h2
  subst h3
  rfl

theorem combineStep_lookup_congr (step_results : List (String × StepResult))
    (rm rm' : List (String × String))
    (crm crm' : List (String × CachedEntry))
    (prompt_versions : List (String × String)) (step_config : StepConfig)
    (h1 : rm.lookup step_config.name = rm'.lookup step_config.name)
    (h2 : crm.lookup step_config.name = crm'.lookup step_config.name) :
    combineStep step_results rm crm prompt_versions step_config =
      combineStep step_results rm' crm' prompt_versions step_config := by
  simp only [combineStep, h1, h2]

theorem filterMap_combineStep_name_sublist (step_results : List (String × StepResult))
    (rm : List (String × String)) (crm : List (String × CachedEntry))
    (pv : List (String × String)) (po : List StepConfig) :
    List.Sublist
      ((po.filterMap (combineStep step_results rm crm pv)).map CombinedResult.name)
      (po.map StepConfig.name) := by
  induction po with
  | nil => simp
  | cons cfg rest ih =>
    rw [List.filterMap_cons, List.map_cons]
    cases hc : combineStep step_results rm crm pv cfg with
    | none => exact ih.cons _
    | some r =>
      rw [List.map_cons, combineStep_name_eq step_results rm crm pv cfg r hc]
      exact ih.cons₂ _

/-- C7: the combined output's entries appear in the configured step order
(their names form a sublist of the processing order's names), and the
output is unchanged when the results map or the cached-results map is
replaced by any lookup-equivalent map, so the iteration order of those
maps is irrelevant. -/
theorem combine_results_order (c : AnalysisResultsCollector)
    (rm rm' : List (String × String)) (po : List StepConfig)
    (crm crm' : List (String × CachedEntry)) (pv : List (String × String))
    (l : List CombinedResult)
    (hrm : ∀ s, rm.lookup s = rm'.lookup s)
    (hcrm : ∀ s, crm.lookup s = crm'.lookup s)
    (h : combine_results c rm po crm pv = .ok l) :
    combine_results c rm' po crm' pv = .ok l ∧
      List.Sublist (l.map CombinedResult.name) (po.map StepConfig.name) := by
  have hfm : po.filterMap (combineStep c.step_results rm crm pv) =
      po.filterMap (combineStep c.step_results rm' crm' pv) := by
    apply List.filterMap_congr
    intro cfg _
    exact combineStep_lookup_congr c.step_results rm rm' crm crm' pv cfg (hrm _) (hcrm _)
  constructor
  · rw [combine_results, ← hfm]
    exact h
  · rw [combine_results] at h
    split at h
    · exact Except.noConfusion h
    · cases h
      exact filterMap_combineStep_name_sublist c.step_results rm crm pv po

/-- Witness for C7 at a one-step order with a fresh result. -/
theorem combine_results_order_witness :
    combine_results (mkCollector "repo" none) [("apis", "X")]
        [{ name := "apis" }] [] [] =
      .ok [{ name := "apis", description := "", content := "X", version := "1", cached := false }] ∧
      List.Sublist
        (([{ name := "apis", description := "", content := "X", version := "1", cached := false }] :
            List CombinedResult).map CombinedResult.name)
        (([{ name := "apis" }] : List StepConfig).map StepConfig.name) :=
  combine_results_order (mkCollector "repo" none)
    [("apis", "X")] [("apis", "X")]
    [{ name := "apis" }] [] [] []
    [{ name := "apis", description := "", content := "X", version := "1", cached := false }]
    (fun _ => rfl) (fun _ => rfl) rfl

/-- C8 counterexample: a collector whose configured base sections do not
include "monitoring" combines results that contain no "monitoring" entry
and returns them normally instead of raising. -/
theorem combine_results_missing_monitoring_no_raise :
    combine_results (mkCollector "repo" (some [{ name := "apis" }]))
        [("apis", "X")] [{ name := "apis" }] [] [] =
      Except.ok
        [{ name := "apis", description := "", content := "X", version := "1", cached := false }] ∧
    "monitoring" ∉
      ([{ name := "apis", description := "", content := "X", version := "1", cached := false }] :
        List CombinedResult).map CombinedResult.name :=
  ⟨rfl, by decide⟩

/-- C8 (amended): whenever the collector's base sections include
"monitoring" and the combined results contain no entry named
"monitoring", combine_results raises the hard error aborting the merge
instead of returning the combined list. -/
theorem combine_results_monitoring_hard_error (c : AnalysisResultsCollector)
    (rm : List (String × String)) (po : List StepConfig)
    (crm : List (String × CachedEntry)) (pv : List (String × String))
    (hmon : "monitoring" ∈ c.base_sections)
    (hmiss : "monitoring" ∉
      (po.filterMap (combineStep c.step_results rm crm pv)).map CombinedResult.name) :
    combine_results c rm po crm pv =
      .error "Critical: Monitoring section missing from final results!" := by
  simp only [combine_results]
  rw [if_pos ⟨List.ne_nil_of_mem hmon, hmon, hmiss⟩]

/-- Witness for C8 (amended): a collector configured with a "monitoring"
base section combining an empty results map. -/
theorem combine_results_monitoring_hard_error_witness :
    combine_results (mkCollector "repo" (some [{ name := "monitoring" }]))
        [] [{ name := "monitoring" }] [] [] =
      Except.error "Critical: Monitoring section missing from final results!" :=
  combine_results_monitoring_hard_error (mkCollector "repo" (some [{ name := "monitoring" }]))
    [] [{ name := "monitoring" }] [] [] (by decide) (by decide)

/-- C10: when the fresh results map binds a step name to the empty
string, that step is omitted from the combined output, and no cached
entry for it (matching version or not) is used as a fallback: the loop
body returns nothing for every processing-order entry with that name,
and a successful combine contains no entry with that name. -/
theorem combine_results_empty_fresh_omits (c : AnalysisResultsCollector)
    (rm : List (String × String)) (po : List StepConfig)
    (crm : List (String × CachedEntry)) (pv : List (String × String))
    (s : String) (l : List CombinedResult)
    (hs : rm.lookup s = some "")
    (hok : combine_results c rm po crm pv = .ok l) :
    (∀ cfg ∈ po, cfg.name = s →
      combineStep c.step_results rm crm pv cfg = none) ∧
    (∀ r ∈ l, r.name ≠ s) := by
  have hstep : ∀ cfg : StepConfig, cfg.name = s →
      combineStep c.step_results rm crm pv cfg = none := by
    intro cfg hn
    simp [combineStep, hn, hs, truthy]
  refine ⟨fun cfg _ hn => hstep cfg hn, ?_⟩
  intro r hr hrs
  rw [combine_results] at hok
  split at hok
  · exact Except.noConfusion hok
  · cases hok
    obtain ⟨cfg, hcfg, hsome⟩ := List.mem_filterMap.mp hr
    have hname := combineStep_name_eq c.step_results rm crm pv cfg r hsome
    rw [hstep cfg (hname ▸ hrs)] at hsome
    exact Option.noConfusion hsome

/-- Witness for C10: the step "apis" has a fresh empty-string result and
a cached entry whose version matches the current version, yet a
successful combine is empty. -/
theorem combine_results_empty_fresh_omits_witness :
    (∀ cfg ∈ ([{ name := "apis" }] : List StepConfig), cfg.name = "apis" →
      combineStep (mkCollector "r" none).step_results [("apis", "")]
        [("apis", { version := some "1", content := some "X" })] [("apis", "1")] cfg = none) ∧
    (∀ r ∈ ([] : List CombinedResult), r.name ≠ "apis") :=
  combine_results_empty_fresh_omits (mkCollector "r" none) [("apis", "")]
    [{ name := "apis" }] [("apis", { version := some "1", content := some "X" })]
    [("apis", "1")] "apis" [] rfl rfl

/-- Splitting a character list at every occurrence of a separator
character; embeds Python's str.split with a one-character separator (the
collector only splits on a newline and on an equals sign).  The result is
never empty, and splitting the empty string yields one empty piece, as in
Python. -/
def splitOnChar (sep : Char) : List Char → List (List Char)
  | [] => [[]]
  | c :: cs =>
    if c = sep then
      [] :: splitOnChar sep cs
    else
      match splitOnChar sep cs with
      | [] => [[c]]
      | y :: ys => (c :: y) :: ys

/-- Removal of leading and trailing whitespace from a character list;
embeds Python's str.strip with no arguments. -/
def stripChars (l : List Char) : List Char :=
  ((l.dropWhile Char.isWhitespace).reverse.dropWhile Char.isWhitespace).reverse

/-- The first line of a prompt content: Python's
`prompt_content.split(newline)[0]` in
`AnalysisResultsCollector.extract_prompt_version`. -/
def promptFirstLine (prompt_content : String) : String :=
  String.mk ((splitOnChar '\n' prompt_content.data).headD [])

/-- The version string declared on the first line: Python's
`lines[0].split(equals)[1].strip()` in
`AnalysisResultsCollector.extract_prompt_version`. -/
def declaredVersion (prompt_content : String) : String :=
  String.mk (stripChars ((splitOnChar '=' (promptFirstLine prompt_content).data).getD 1 []))

/-- Version extraction from a prompt's content; mirrors the static method
`AnalysisResultsCollector.extract_prompt_version` in
`src/investigator/core/analysis_results_collector.py`.  Empty content,
a first line that does not start with "version=", and an empty declared
version each raise (the internally raised empty-version error is caught
and re-raised as the invalid-format error, which is what the caller
sees); otherwise the stripped version string from the first line is
returned. -/
def extract_prompt_version (prompt_content : String) : Except String String :=
  if prompt_content = "" then
    .error "Prompt content is empty"
  else if "version=".data.isPrefixOf (promptFirstLine prompt_content).data then
    if declaredVersion prompt_content = "" then
      .error ("Invalid version format in prompt (line missing?): " ++ prompt_content)
    else
      .ok (declaredVersion prompt_content)
  else
    .error ("No version found in prompt: " ++ prompt_content)

/-- C9: extract_prompt_version raises exactly when the content is empty,
the first line does not begin with "version=", or the declared version
after the equals sign is empty (after stripping); in every other case it
returns the non-empty version string taken from the first line. -/
theorem extract_prompt_version_spec (prompt_content : String) :
    ((∃ e, extract_prompt_version prompt_content = .error e) ↔
      (prompt_content = "" ∨
        ¬ "version=".data.isPrefixOf (promptFirstLine prompt_content).data ∨
        declaredVersion prompt_content = "")) ∧
    (∀ v, extract_prompt_version prompt_content = .ok v →
      v = declaredVersion prompt_content ∧ v ≠ "") := by
  by_cases h1 : prompt_content = ""
  · constructor
    · simp [extract_prompt_version, h1]
    · intro v hv
      simp [extract_prompt_version, h1] at hv
  · by_cases h2 : "version=".data.isPrefixOf (promptFirstLine prompt_content).data
    · by_cases h3 : declaredVersion prompt_content = ""
      · constructor
        · simp [extract_prompt_version, h1, h2, h3]
        · intro v hv
          simp [extract_prompt_version, h1, h2, h3] at hv
      · constructor
        · simp [extract_prompt_version, h1, h2, h3]
        · intro v hv
          simp [extract_prompt_version, h1, h2, h3] at hv
          subst hv
          exact ⟨rfl, h3⟩
    · constructor
      · simp [extract_prompt_version, h1, h2]
      · intro v hv
        simp [extract_prompt_version, h1, h2] at hv

/-- Witness for C9: the empty content raises, and a well-formed header
returns its declared version. -/
theorem extract_prompt_version_spec_witness :
    (∃ e, extract_prompt_version "" = Except.error e) ∧
    ("2" = declaredVersion "version=2\nbody" ∧ "2" ≠ "") :=
  ⟨(extract_prompt_version_spec "").1.mpr (Or.inl rfl),
   (extract_prompt_version_spec "version=2\nbody").2 "2" rfl⟩

end RepoSwarm
